import Mathlib

/-!
Verification of the merge/classification engine of the api-explorer repository
(scripts/merge-apis-2.py) and the batch updater (scripts/batch-update.py),
as a shallow embedding in Lean 4.

Modelling conventions:
* Python strings are Lean `String`s; character-level operations (lower, strip)
  are modelled on code points with ASCII case mapping (`Char.toLower`), which
  agrees with Python on all ASCII data.
* Python's `urllib.parse.urlparse` is modelled by `urlparseQ` below, covering
  the behaviour relevant to this program: removal of embedded tab/CR/LF,
  scheme detection, authority (netloc) extraction after "//", the
  mismatched-square-bracket check that makes CPython raise
  ValueError("Invalid IPv6 URL") (modelled as `none`), fragment/query
  stripping, and parameter splitting in the last path segment.
* In-place mutation of target records (Python dicts held by reference in the
  lookup lists) is modelled by indices: the lookup maps a key to the list of
  positions in the target list, in target order, and mutation is `List.set`.
* A raised exception is modelled by `Option`: `none` means the run aborts.
-/

/-- ASCII lowercase of one character, modelling Python str.lower on ASCII data. -/
def pyLowerChar (c : Char) : Char := c.toLower

/-- Lowercase a string character by character, modelling Python str.lower. -/
def pyLower (s : String) : String := String.mk (s.toList.map pyLowerChar)

/-- Python str.strip(): drop whitespace from both ends. -/
def pyStripWs (l : List Char) : List Char :=
  ((l.dropWhile Char.isWhitespace).reverse.dropWhile Char.isWhitespace).reverse

/-- Python str.rstrip(c): drop every trailing occurrence of the character c. -/
def pyRstrip (c : Char) (l : List Char) : List Char :=
  (l.reverse.dropWhile (fun d => d == c)).reverse

/-- Python str.strip(c) for a single character c: drop it from both ends. -/
def pyStripChar (c : Char) (l : List Char) : List Char :=
  ((l.dropWhile (fun d => d == c)).reverse.dropWhile (fun d => d == c)).reverse

/-- Characters kept verbatim by the slug regex class [a-z0-9]. -/
def isSlugChar (c : Char) : Bool := (Char.ofNat 97 ≤ c && c ≤ Char.ofNat 122) || c.isDigit

/-- Helper for collapseRuns: the flag records whether we are inside a run of
non-slug characters whose dash was already emitted. -/
def collapseAux : Bool → List Char → List Char
  | _, [] => []
  | inRun, c :: rest =>
    if isSlugChar c then c :: collapseAux false rest
    else if inRun then collapseAux true rest
    else '-' :: collapseAux true rest

/-- Replace every maximal run of non-slug characters by a single dash,
modelling re.sub(r"[^a-z0-9]+", "-", s). -/
def collapseRuns (l : List Char) : List Char := collapseAux false l

/-- slugify from merge-apis-2.py: lowercase, strip ampersands, collapse
non-alphanumeric runs to single dashes, trim dashes. -/
def slugify (text : String) : String :=
  String.mk (pyStripChar '-' (collapseRuns ((text.toList.map pyLowerChar).filter (fun c => c != '&'))))

/-- AUTH_MAP from merge-apis-2.py as a lookup function (Python dict.get). -/
def authMapGet (k : String) : Option String :=
  if k = "" then some "none"
  else if k = "apikey" then some "api-key"
  else if k = "oauth" then some "oauth"
  else if k = "x-mashape-key" then some "x-mashape-key"
  else if k = "user-agent" then some "user-agent"
  else if k = "yes" then some "api-key"
  else none

/-- normalize_auth from merge-apis-2.py: strip, lowercase, look up in
AUTH_MAP, default to api-key when absent. -/
def normalize_auth (raw : String) : String :=
  match authMapGet (pyLower (String.mk (pyStripWs raw.toList))) with
  | some r => r
  | none => "api-key"

/-- Characters CPython urlsplit removes from the URL before parsing. -/
def isUnsafeUrlChar (c : Char) : Bool := c == '\t' || c == '\r' || c == '\n'

/-- Characters allowed in a URL scheme (letters, digits, plus, dash, dot). -/
def isSchemeChar (c : Char) : Bool := c.isAlpha || c.isDigit || c == '+' || c == '-' || c == '.'

/-- Drop a leading "scheme:" when present, modelling CPython urlsplit scheme
detection: a nonempty prefix of scheme characters starting with a letter,
terminated by a colon. -/
def dropScheme (l : List Char) : List Char :=
  let pre := l.takeWhile (fun c => c != ':')
  if pre.length < l.length && pre.length > 0 && pre.all isSchemeChar &&
      (match pre with | c :: _ => c.isAlpha | [] => false) then
    l.drop (pre.length + 1)
  else l

/-- True on the characters that terminate the authority component. -/
def isNetlocEnd (c : Char) : Bool := c == '/' || c == '?' || c == '#'

/-- Result of urlparse restricted to the fields this program reads. -/
structure UrlParts where
  netloc : List Char
  path : List Char
deriving DecidableEq, Inhabited, Repr

/-- Strip ";params" from the last path segment, modelling urllib _splitparams
(only called when a semicolon is present). -/
def splitParamsPath (u : List Char) : List Char :=
  if u.contains '/' then
    let lastSeg := (u.reverse.takeWhile (fun c => c != '/')).reverse
    if lastSeg.contains ';' then
      u.take (u.length - lastSeg.length) ++ lastSeg.takeWhile (fun c => c != ';')
    else u
  else u.takeWhile (fun c => c != ';')

/-- Path extraction after the authority: drop fragment, then query, then params. -/
def pathOf (rest : List Char) : List Char :=
  let u := (rest.takeWhile (fun c => c != '#')).takeWhile (fun c => c != '?')
  if u.contains ';' then splitParamsPath u else u

/-- Model of urllib.parse.urlparse restricted to netloc and path.  Returns
none exactly where CPython raises ValueError("Invalid IPv6 URL"): a square
bracket opened but not closed (or closed but not opened) in the authority. -/
def urlparseQ (s : List Char) : Option UrlParts :=
  let l := (s.filter (fun c => !isUnsafeUrlChar c))
  let l := dropScheme l
  match l with
  | '/' :: '/' :: rest =>
    let netloc := rest.takeWhile (fun c => !isNetlocEnd c)
    let rest2 := rest.dropWhile (fun c => !isNetlocEnd c)
    if (netloc.contains '[') != (netloc.contains ']') then none
    else some ⟨netloc, pathOf rest2⟩
  | _ => some ⟨[], pathOf l⟩

/-- Drop a leading "www." from an (already lowercased) host. -/
def dropWww (h : List Char) : List Char :=
  match h with
  | 'w' :: 'w' :: 'w' :: '.' :: rest => rest
  | _ => h

/-- normalize_url from merge-apis-2.py: strip whitespace and trailing slashes,
parse, lowercase the host, strip www., drop trailing slashes from the path,
return host ++ path.  none models the ValueError escaping from urlparse. -/
def normalize_url (url : String) : Option String :=
  let u := pyRstrip '/' (pyStripWs url.toList)
  (urlparseQ u).map (fun p =>
    String.mk (dropWww (p.netloc.map pyLowerChar) ++ pyRstrip '/' p.path))

/-- get_domain from merge-apis-2.py: host of the stripped URL, lowercased,
www. removed.  none models the ValueError escaping from urlparse. -/
def get_domain (url : String) : Option String :=
  (urlparseQ (pyStripWs url.toList)).map (fun p =>
    String.mk (dropWww (p.netloc.map pyLowerChar)))

/-- GENERIC_DOMAINS from merge-apis-2.py. -/
def GENERIC_DOMAINS : List String :=
  ["github.com", "github.io", "gitlab.com", "bitbucket.org",
   "herokuapp.com", "netlify.app", "vercel.app", "render.com",
   "replit.com", "glitch.me", "firebase.google.com",
   "documenter.getpostman.com", "rapidapi.com", "readme.io",
   "swagger.io", "postman.com", "apiary.io"]

/-- The try-it probe descriptor attached to a record. -/
structure TryIt where
  url : String
  responseType : String
  params : List (String × String)
deriving DecidableEq, Inhabited, Repr

/-- A canonical API record of data/apis.json. -/
structure ApiRecord where
  name : String
  url : String
  description : String
  auth : String
  https : Bool
  cors : String
  category : String
  status : String
  notes : String
  dateChecked : Option String
  tryIt : Option TryIt
deriving DecidableEq, Inhabited, Repr

/-- A record of the foreign public-apis-2 schema. -/
structure SourceRecord where
  api : String
  link : String
  description : String
  auth : String
  https : Bool
  cors : String
  category : String
deriving DecidableEq, Inhabited, Repr

/-- transform_entry from merge-apis-2.py: convert a foreign record to the
canonical schema. -/
def transform_entry (src : SourceRecord) : ApiRecord :=
  { name := src.api
    url := src.link
    description := src.description
    auth := normalize_auth src.auth
    https := src.https
    cors := pyLower src.cors
    category := slugify src.category
    status := "pending"
    notes := ""
    dateChecked := none
    tryIt := none }

/-- Indexed views into the target data (TargetLookup in merge-apis-2.py).
Each lookup returns the positions, in target order, of the records the
corresponding Python dict lists under the key; Python holds the records by
reference, which the index positions model. -/
structure TargetLookup where
  by_name : String → List Nat
  by_url : String → List Nat
  by_domain : String → List Nat
  by_name_cat : String → String → List Nat

/-- The lookup with no entries at all. -/
def emptyLookup : TargetLookup :=
  ⟨fun _ => [], fun _ => [], fun _ => [], fun _ _ => []⟩

instance : Inhabited TargetLookup := ⟨emptyLookup⟩

/-- Positions (offset by n) of the elements of t satisfying p, in order. -/
def idxWhere (n : Nat) (t : List ApiRecord) (p : ApiRecord → Bool) : List Nat :=
  match t with
  | [] => []
  | a :: as => if p a then n :: idxWhere (n + 1) as p else idxWhere (n + 1) as p

/-- build_lookup from merge-apis-2.py.  none models the ValueError raised by
urlparse while normalizing a target record URL. -/
def build_lookup (target : List ApiRecord) : Option TargetLookup :=
  if target.all (fun a => (normalize_url a.url).isSome && (get_domain a.url).isSome) then
    some
      { by_name := fun k => idxWhere 0 target (fun a => pyLower a.name == k)
        by_url := fun k => idxWhere 0 target (fun a => normalize_url a.url == some k)
        by_domain := fun d =>
          if d != "" && !(GENERIC_DOMAINS.contains d) then
            idxWhere 0 target (fun a => get_domain a.url == some d)
          else []
        by_name_cat := fun k c =>
          idxWhere 0 target (fun a => pyLower a.name == k && a.category == c) }
  else none

/-- The lookup built over a target list, defaulting when construction fails. -/
def lookupOf (t : List ApiRecord) : TargetLookup :=
  (build_lookup t).getD emptyLookup

/-- A tier-2 report entry (results.renamed). -/
structure RenamedEntry where
  sourceName : String
  existingName : String
  url : String
  category : String
deriving DecidableEq, Inhabited, Repr

/-- A tier-3 report entry (results.url_updates / url_updates_applied). -/
structure UrlUpdateEntry where
  name : String
  category : String
  currentUrl : String
  currentStatus : String
  sourceUrl : String
  action : String
deriving DecidableEq, Inhabited, Repr

/-- A tier-4 report entry (results.cross_category). -/
structure CrossCatEntry where
  sourceName : String
  sourceCategory : String
  existingName : String
  existingCategory : String
  sourceUrl : String
  existingUrl : String
deriving DecidableEq, Inhabited, Repr

/-- A tier-5 report entry (results.domain_matches). -/
structure DomainMatchEntry where
  sourceName : String
  sourceUrl : String
  sourceCategory : String
  existingName : String
  existingUrl : String
  existingCategory : String
  action : String
deriving DecidableEq, Inhabited, Repr

/-- MergeResults from merge-apis-2.py. -/
structure MergeResults where
  duplicates : List ApiRecord
  renamed : List RenamedEntry
  url_updates : List UrlUpdateEntry
  url_updates_applied : List UrlUpdateEntry
  cross_category : List CrossCatEntry
  domain_matches : List DomainMatchEntry
  new_apis : List ApiRecord
deriving DecidableEq, Inhabited, Repr

/-- The empty result collection every classification pass starts from. -/
def emptyResults : MergeResults := ⟨[], [], [], [], [], [], []⟩

/-- The seven classification outcomes of the tier procedure. -/
inductive Outcome where
  | duplicate
  | renamed
  | urlUpdateApplied
  | urlUpdateFlagged
  | crossCategory
  | domainMatchAdded
  | new
deriving DecidableEq, Inhabited, Repr

/-- The tier cascade of the classification loop of classify_and_merge, after
the source URL has been normalized (url_key) and its domain extracted
(domain): classify one source record against the lookup, mutating the target
(by position) only on the tier-3 auto-apply path. -/
def classifyCore (lk : TargetLookup) (target : List ApiRecord)
    (results : MergeResults) (src : SourceRecord) (url_key domain : String) :
    List ApiRecord × MergeResults × Outcome :=
  let transformed := transform_entry src
  let name_key := pyLower transformed.name
  let category := transformed.category
  let name_matches := lk.by_name name_key
  let url_matches := lk.by_url url_key
  if !name_matches.isEmpty && !url_matches.isEmpty then
    (target, { results with duplicates := results.duplicates ++ [transformed] },
     Outcome.duplicate)
  else if !url_matches.isEmpty then
    let existing := target.getD (url_matches.headD 0) default
    (target,
     { results with renamed := results.renamed ++
         [⟨transformed.name, existing.name, transformed.url, category⟩] },
     Outcome.renamed)
  else
    match lk.by_name_cat name_key category with
    | i :: _ =>
      let existing := target.getD i default
      let entryBase : UrlUpdateEntry :=
        ⟨transformed.name, category, existing.url, existing.status, transformed.url, ""⟩
      if existing.status = "broken" then
        let updated := { existing with
          url := transformed.url
          status := "pending"
          notes := "URL updated from public-apis-2 (was broken). Previous: " ++ existing.notes
          dateChecked := none
          tryIt := none }
        (target.set i updated,
         { results with url_updates_applied := results.url_updates_applied ++
             [{ entryBase with action := "auto-updated" }] },
         Outcome.urlUpdateApplied)
      else
        (target,
         { results with url_updates := results.url_updates ++
             [{ entryBase with action := "flagged" }] },
         Outcome.urlUpdateFlagged)
    | [] =>
      if !name_matches.isEmpty then
        let existing := target.getD (name_matches.headD 0) default
        (target,
         { results with cross_category := results.cross_category ++
             [⟨transformed.name, category, existing.name, existing.category,
               transformed.url, existing.url⟩] },
         Outcome.crossCategory)
      else if domain != "" && !(GENERIC_DOMAINS.contains domain) &&
          !(lk.by_domain domain).isEmpty then
        let existing := target.getD ((lk.by_domain domain).headD 0) default
        (target,
         { results with
             domain_matches := results.domain_matches ++
               [⟨transformed.name, transformed.url, category, existing.name,
                 existing.url, existing.category, "added-as-new"⟩]
             new_apis := results.new_apis ++ [transformed] },
         Outcome.domainMatchAdded)
      else
        (target, { results with new_apis := results.new_apis ++ [transformed] },
         Outcome.new)

/-- One iteration of the classification loop of classify_and_merge.  The
source record is transformed and its URL normalized first, exactly as at the
top of the loop body; none models the ValueError escaping from urlparse on
the source URL, which aborts the whole run. -/
def classifyStep (lk : TargetLookup) (target : List ApiRecord)
    (results : MergeResults) (src : SourceRecord) :
    Option (List ApiRecord × MergeResults × Outcome) :=
  match normalize_url (transform_entry src).url, get_domain (transform_entry src).url with
  | some url_key, some domain => some (classifyCore lk target results src url_key domain)
  | _, _ => none

/-- The classification loop over a source list, threading target and results. -/
def classifyAll (lk : TargetLookup) :
    List SourceRecord → List ApiRecord → MergeResults →
    Option (List ApiRecord × MergeResults)
  | [], t, r => some (t, r)
  | s :: ss, t, r =>
    match classifyStep lk t r s with
    | none => none
    | some (t', r', _) => classifyAll lk ss t' r'

/-- classify_and_merge from merge-apis-2.py: classify every source entry,
starting from empty results. -/
def classify_and_merge (source : List SourceRecord) (target : List ApiRecord)
    (lk : TargetLookup) : Option (List ApiRecord × MergeResults) :=
  classifyAll lk source target emptyResults

/-- insert_sorted from merge-apis-2.py: group existing and new records by
category, sort the category keys, and sort each group by lowercased name.
Python sorted is a stable sort, and a stable sort's output is unique for a
total preorder, so the stable insertionSort used here produces the same
sequence. -/
def insert_sorted (existing new_entries : List ApiRecord) : List ApiRecord :=
  let all := existing ++ new_entries
  let cats := ((all.map (fun a => a.category)).dedup).insertionSort (fun a b => a ≤ b)
  (cats.map (fun c =>
    (all.filter (fun a => a.category == c)).insertionSort
      (fun a b => pyLower a.name ≤ pyLower b.name))).flatten

/-- Count of records whose status is not pending (the tested count of main). -/
def countTested (t : List ApiRecord) : Nat :=
  t.countP (fun a => a.status != "pending")

/-- The write decision of main in merge-apis-2.py under the apply flag: build
the merged list and compare the post-merge tested count with the expected
value; none models sys.exit(1) with nothing written, some models writing the
merged list to the store. -/
def mergeWriteDecision (testedBefore : Nat) (target : List ApiRecord)
    (results : MergeResults) : Option (List ApiRecord) :=
  if countTested (insert_sorted target results.new_apis) <
      testedBefore - results.url_updates_applied.length then none
  else some (insert_sorted target results.new_apis)

/-- VALID_STATUSES from batch-update.py. -/
def VALID_STATUSES : List String :=
  ["pending", "working", "broken", "paid-only", "needs-key", "skipped"]

/-- An update directive of a batch-update session file.  tryIt is none when
the try-it key is absent from the directive. -/
structure UpdateDirective where
  name : String
  status : String
  notes : String
  tryIt : Option TryIt
deriving DecidableEq, Inhabited, Repr

/-- Position of the first record whose lowercased name equals the directive
name lowercased (matches[0] in batch-update.py). -/
def firstNameMatch (apis : List ApiRecord) (nm : String) : Option Nat :=
  (idxWhere 0 apis (fun a => pyLower a.name == pyLower nm)).head?

/-- The in-place field updates batch-update.py applies to a matched record. -/
def applyDirective (today : String) (a : ApiRecord) (u : UpdateDirective) : ApiRecord :=
  { a with
    status := u.status
    notes := u.notes
    dateChecked := if u.status != "pending" then some today else a.dateChecked
    tryIt := match u.tryIt with | some t => some t | none => a.tryIt }

/-- One iteration of the batch-update loop: state is (store, success, failed). -/
def batchStep (today : String) (st : List ApiRecord × Nat × Nat)
    (u : UpdateDirective) : List ApiRecord × Nat × Nat :=
  match firstNameMatch st.1 u.name with
  | none => (st.1, st.2.1, st.2.2 + 1)
  | some i => (st.1.set i (applyDirective today (st.1.getD i default) u), st.2.1 + 1, st.2.2)

/-- The batch-update loop over a validated session, returning the final store
and the reported success and failure counts. -/
def runBatch (today : String) (apis : List ApiRecord)
    (updates : List UpdateDirective) : List ApiRecord × Nat × Nat :=
  updates.foldl (batchStep today) (apis, 0, 0)

/-- A source record whose Cors value is outside the cors enum. -/
def corsCounterSrc : SourceRecord :=
  ⟨"SomeApi", "https://x.example.com", "d", "", true, "Maybe", "tools"⟩

/-- A source record whose Link makes urlparse raise
ValueError("Invalid IPv6 URL") in CPython. -/
def invalidUrlSrc : SourceRecord :=
  ⟨"Bad Brackets", "http://[::1", "d", "", true, "yes", "tools"⟩

/-- The lowercased name key a source record is classified under. -/
def nameKeyOf (src : SourceRecord) : String := pyLower (transform_entry src).name

/-- Tier 1 condition: the name key and the normalized URL key both hit the target. -/
def tier1Cond (lk : TargetLookup) (src : SourceRecord) (u : String) : Bool :=
  !(lk.by_name (nameKeyOf src)).isEmpty && !(lk.by_url u).isEmpty

/-- Tier 2 condition: the normalized URL key hits the target. -/
def tier2Cond (lk : TargetLookup) (u : String) : Bool :=
  !(lk.by_url u).isEmpty

/-- Tier 3 condition: the (name key, category) pair hits the target. -/
def tier3Cond (lk : TargetLookup) (src : SourceRecord) : Bool :=
  !(lk.by_name_cat (nameKeyOf src) (transform_entry src).category).isEmpty

/-- Tier 4 condition: the name key hits the target. -/
def tier4Cond (lk : TargetLookup) (src : SourceRecord) : Bool :=
  !(lk.by_name (nameKeyOf src)).isEmpty

/-- Tier 5 condition: a nonempty, non-generic domain that hits the target. -/
def tier5Cond (lk : TargetLookup) (d : String) : Bool :=
  d != "" && !(GENERIC_DOMAINS.contains d) && !(lk.by_domain d).isEmpty

/-- The outcome tier 3 emits: auto-applied when the first (name, category)
match is broken, flagged otherwise. -/
def tier3Outcome (lk : TargetLookup) (src : SourceRecord) (t : List ApiRecord) : Outcome :=
  match lk.by_name_cat (nameKeyOf src) (transform_entry src).category with
  | i :: _ =>
    if (t.getD i default).status = "broken" then Outcome.urlUpdateApplied
    else Outcome.urlUpdateFlagged
  | [] => Outcome.urlUpdateFlagged

/-- The outcome of the first tier whose condition holds, in the fixed order
1 exact duplicate, 2 renamed, 3 URL update, 4 cross category, 5 domain
match, 6 new. -/
def firstTierOutcome (lk : TargetLookup) (src : SourceRecord) (u d : String)
    (t : List ApiRecord) : Outcome :=
  if tier1Cond lk src u then Outcome.duplicate
  else if tier2Cond lk u then Outcome.renamed
  else if tier3Cond lk src then tier3Outcome lk src t
  else if tier4Cond lk src then Outcome.crossCategory
  else if tier5Cond lk d then Outcome.domainMatchAdded
  else Outcome.new

/-- The in-place auto-update tier 3 applies to a broken record e: source URL,
status pending, provenance note retaining the prior notes, nulled
date-checked and try-it. -/
def brokenPatch (src : SourceRecord) (e : ApiRecord) : ApiRecord :=
  { e with
    url := (transform_entry src).url
    status := "pending"
    notes := "URL updated from public-apis-2 (was broken). Previous: " ++ e.notes
    dateChecked := none
    tryIt := none }

/-- The report entry tier 3 collects for the matched record e. -/
def tier3Entry (src : SourceRecord) (e : ApiRecord) (act : String) : UrlUpdateEntry :=
  ⟨(transform_entry src).name, (transform_entry src).category, e.url, e.status,
   (transform_entry src).url, act⟩

/-- A source record classified as genuinely new by the empty lookup. -/
def frameWitnessSrc : SourceRecord :=
  ⟨"Fresh", "https://fresh.example.org", "d", "", true, "yes", "tools"⟩

/-- Target records for the C10 witness: record A carries the source name,
record B carries the source URL, and A and B are different records neither
of which matches both keys. -/
def w10a : ApiRecord :=
  ⟨"Foo", "https://a.example.com", "", "none", true, "yes", "tools", "working", "", none, none⟩

/-- Second target record for the C10 witness. -/
def w10b : ApiRecord :=
  ⟨"Bar", "https://foo-api.example.com", "", "none", true, "yes", "tools", "working", "", none, none⟩

/-- Source record for the C10 witness. -/
def w10src : SourceRecord :=
  ⟨"Foo", "https://foo-api.example.com/", "", "", true, "yes", "tools"⟩

/-- Broken target record for the C3 witness (the scenario of the spec). -/
def w3broken : ApiRecord :=
  ⟨"Foo", "https://foo.com/v1", "", "none", true, "yes", "tools", "broken",
   "old note", some "2026-01-01", none⟩

/-- Source record for the C3 witness. -/
def w3src : SourceRecord := ⟨"Foo", "https://foo.com/v2", "", "", true, "yes", "tools"⟩

/-- Target record for the C1 witness: it matches the source on name, URL and
(name, category), so tier 1 and tier 3 conditions hold together. -/
def w1rec : ApiRecord :=
  ⟨"Foo", "https://foo.com", "", "none", true, "yes", "tools", "working", "", none, none⟩

/-- Source record for the C1 witness. -/
def w1src : SourceRecord := ⟨"Foo", "https://foo.com", "", "", true, "yes", "tools"⟩

/-- Target for the C2 witness: one broken and one working record. -/
def w2target : List ApiRecord :=
  [⟨"Foo", "https://foo.com/v1", "", "none", true, "yes", "tools", "broken", "", none, none⟩,
   ⟨"Old", "https://old.example.com", "", "none", true, "yes", "tools", "working", "",
    some "2026-01-01", none⟩]

/-- Source for the C2 witness: one tier-3 auto-update and one new record. -/
def w2source : List SourceRecord :=
  [⟨"Foo", "https://foo.com/v2", "", "", true, "yes", "tools"⟩,
   ⟨"Fresh One", "https://fresh.example.net", "", "", true, "yes", "tools"⟩]

/-- The C2 witness run: classify w2source against w2target. -/
def w2run : List ApiRecord × MergeResults :=
  (classify_and_merge w2source w2target (lookupOf w2target)).getD ([], emptyResults)

/-- Source record for the C4 witness. -/
def w4src : SourceRecord := ⟨"Solo", "https://solo.example.net", "", "", true, "yes", "Tools"⟩

/-- First C4 witness pass: classify w4src against the empty target. -/
def w4run : List ApiRecord × MergeResults :=
  (classify_and_merge [w4src] [] (lookupOf [])).getD ([], emptyResults)

/-- The merged target of the C4 witness after inserting the new records. -/
def w4merged : List ApiRecord := insert_sorted w4run.1 w4run.2.new_apis

/-- The store record for the C9 witness. -/
def w9api : ApiRecord :=
  ⟨"Alpha", "https://alpha.example.com", "", "none", true, "yes", "tools", "pending", "", none, none⟩

/-- The directives for the C9 witness: one case-insensitive hit, one miss. -/
def w9updates : List UpdateDirective :=
  [⟨"alpha", "working", "ok", none⟩, ⟨"Missing", "broken", "gone", none⟩]

example : slugify "Science & Math" = "science-math" := by decide

example : slugify "  Odd!!Chars__here" = "odd-chars-here" := by decide

example : normalize_auth "" = "none" := by decide

example : normalize_auth " ApiKey " = "api-key" := by decide

example : normalize_url "https://Example.com/foo/" = some "example.com/foo" := by decide

example : normalize_url "http://www.example.com/foo" = some "example.com/foo" := by decide

example : normalize_url "http://[::1" = none := by decide

example : normalize_url "" = some "" := by decide

example : get_domain "https://www.Foo.com/bar" = some "foo.com" := by decide

/-- A list with an element satisfying p has a nonempty index list. -/
theorem idxWhere_ne_nil {p : ApiRecord → Bool} {t : List ApiRecord} {a : ApiRecord}
    (ha : a ∈ t) (hp : p a = true) : ∀ n, idxWhere n t p ≠ [] := by
  induction t with
  | nil => cases ha
  | cons b bs ih =>
    intro n
    unfold idxWhere
    by_cases hb : p b = true
    · simp [hb]
    · rcases List.mem_cons.mp ha with rfl | hmem
      · exact absurd hp hb
      · have hb' : p b = false := by revert hb; cases p b <;> simp
        simp only [hb', if_neg]
        simpa using ih hmem (n + 1)

/-- A nonempty list is not isEmpty. -/
theorem isEmpty_eq_false_of_ne_nil {α : Type} {l : List α} (h : l ≠ []) :
    l.isEmpty = false := by
  cases l with
  | nil => exact absurd rfl h
  | cons a as => rfl

/-- The head of an index list is the first position satisfying p. -/
theorem idxWhere_head {p : ApiRecord → Bool} :
    ∀ (t : List ApiRecord) (n i : Nat) (rest : List Nat),
      idxWhere n t p = i :: rest →
      n ≤ i ∧ i - n < t.length ∧ p (t.getD (i - n) default) = true ∧
        ∀ j, n ≤ j → j < i → p (t.getD (j - n) default) = false := by
  intro t
  induction t with
  | nil => intro n i rest h; simp [idxWhere] at h
  | cons a as ih =>
    intro n i rest h
    unfold idxWhere at h
    by_cases ha : p a = true
    · rw [if_pos ha] at h
      obtain ⟨rfl, -⟩ : n = i ∧ idxWhere (n + 1) as p = rest := by
        constructor
        · exact (List.cons.injEq _ _ _ _ ▸ h).1
        · exact (List.cons.injEq _ _ _ _ ▸ h).2
      refine ⟨Nat.le_refl n, by simp, ?_, ?_⟩
      · simpa using ha
      · intro j hj1 hj2; omega
    · rw [if_neg ha] at h
      obtain ⟨h1, h2, h3, h4⟩ := ih (n + 1) i rest h
      have ha' : p a = false := by revert ha; cases p a <;> simp
      refine ⟨by omega, by simp; omega, ?_, ?_⟩
      · have : i - n = (i - (n + 1)) + 1 := by omega
        rw [this]
        simpa using h3
      · intro j hjn hji
        by_cases hje : j = n
        · subst hje
          simpa [Nat.sub_self] using ha'
        · have : j - n = (j - (n + 1)) + 1 := by omega
          rw [this]
          simpa using h4 j (by omega) hji

/-- C5: normalize_auth is total into the fixed enum: every string maps to one
of none, api-key, oauth, x-mashape-key, user-agent; any key outside AUTH_MAP
is mapped to api-key; the garbage value yes and the already-normalized value
none both map to api-key. -/
theorem normalize_auth_total_enum (s : String) :
    normalize_auth s ∈ ["none", "api-key", "oauth", "x-mashape-key", "user-agent"] ∧
    (authMapGet (pyLower (String.mk (pyStripWs s.toList))) = none →
      normalize_auth s = "api-key") ∧
    normalize_auth "yes" = "api-key" ∧
    normalize_auth "none" = "api-key" := by
  refine ⟨?_, ?_, by decide, by decide⟩
  · cases h : authMapGet (pyLower (String.mk (pyStripWs s.toList))) with
    | none =>
      have he : normalize_auth s = "api-key" := by
        show (match authMapGet (pyLower (String.mk (pyStripWs s.toList))) with
              | some r => r | none => "api-key") = "api-key"
        rw [h]
      rw [he]; decide
    | some r =>
      have he : normalize_auth s = r := by
        show (match authMapGet (pyLower (String.mk (pyStripWs s.toList))) with
              | some r => r | none => "api-key") = r
        rw [h]
      rw [he]
      unfold authMapGet at h
      repeat' split at h
      all_goals first
        | (injection h with h2; subst h2; decide)
        | cases h
  · intro h
    show (match authMapGet (pyLower (String.mk (pyStripWs s.toList))) with
          | some r => r | none => "api-key") = "api-key"
    rw [h]

/-- Witness for C5: a garbage auth value outside AUTH_MAP maps to api-key. -/
theorem normalize_auth_total_enum_witness : normalize_auth "Garbage!!" = "api-key" :=
  (normalize_auth_total_enum "Garbage!!").2.1 (by decide)

/-- C8 counterexample: transform_entry passes the lowercased Cors value
through unmapped, so a source Cors of Maybe yields a cors field outside the
enum yes, no, unknown. -/
theorem transform_cors_not_enum :
    ¬ ((transform_entry corsCounterSrc).cors ∈ (["yes", "no", "unknown"] : List String)) := by
  decide

/-- C8 amended: the canonical record's cors field is the lowercased source
Cors string, so it lies in the enum yes, no, unknown exactly when the
lowercased source value does. -/
theorem transform_cors_enum_of_source_enum (src : SourceRecord)
    (h : pyLower src.cors ∈ (["yes", "no", "unknown"] : List String)) :
    (transform_entry src).cors ∈ (["yes", "no", "unknown"] : List String) := h

/-- Witness for the amended C8 at a source record with Cors value Yes. -/
theorem transform_cors_enum_witness :
    (transform_entry (⟨"A", "https://a.example.com", "", "", true, "Yes", "tools"⟩ : SourceRecord)).cors
      ∈ (["yes", "no", "unknown"] : List String) :=
  transform_cors_enum_of_source_enum _ (by decide)

/-- C6: the classifier is NOT total on malformed URL input.  A source record
whose Link has a square bracket opened but never closed in the authority
makes urlparse raise ValueError, which classify_and_merge does not catch:
normalize_url aborts (none) and the classification step emits no outcome for
the record, for any lookup and any target state. -/
theorem classify_aborts_on_invalid_ipv6 :
    normalize_url "http://[::1" = none ∧
    ∀ (lk : TargetLookup) (t : List ApiRecord) (r : MergeResults),
      classifyStep lk t r invalidUrlSrc = none := by
  refine ⟨by decide, fun lk t r => rfl⟩

/-- A list whose isEmpty is true is nil. -/
theorem eq_nil_of_isEmpty {α : Type} {l : List α} (h : l.isEmpty = true) : l = [] := by
  cases l with
  | nil => rfl
  | cons a as => simp [List.isEmpty] at h

/-- The classification step aborts when the source URL fails to normalize. -/
theorem classifyStep_none_left (lk : TargetLookup) (t : List ApiRecord)
    (r : MergeResults) (src : SourceRecord)
    (h : normalize_url (transform_entry src).url = none) :
    classifyStep lk t r src = none := by
  unfold classifyStep; rw [h]

/-- The classification step aborts when domain extraction fails. -/
theorem classifyStep_none_right (lk : TargetLookup) (t : List ApiRecord)
    (r : MergeResults) (src : SourceRecord) (u : String)
    (h1 : normalize_url (transform_entry src).url = some u)
    (h2 : get_domain (transform_entry src).url = none) :
    classifyStep lk t r src = none := by
  unfold classifyStep; rw [h1, h2]

/-- When the source URL parses, the classification step runs the tier cascade. -/
theorem classifyStep_some (lk : TargetLookup) (t : List ApiRecord)
    (r : MergeResults) (src : SourceRecord) (u d : String)
    (h1 : normalize_url (transform_entry src).url = some u)
    (h2 : get_domain (transform_entry src).url = some d) :
    classifyStep lk t r src = some (classifyCore lk t r src u d) := by
  unfold classifyStep; rw [h1, h2]

/-- Tier 1 branch: both the name key and the URL key hit the target. -/
theorem classifyCore_tier1 (lk : TargetLookup) (t : List ApiRecord) (r : MergeResults)
    (src : SourceRecord) (u d : String)
    (h1 : (lk.by_name (pyLower (transform_entry src).name)).isEmpty = false)
    (h2 : (lk.by_url u).isEmpty = false) :
    classifyCore lk t r src u d =
      (t, { r with duplicates := r.duplicates ++ [transform_entry src] },
       Outcome.duplicate) := by
  unfold classifyCore
  simp [h1, h2]

/-- Tier 2 branch: the URL key hits the target but the name key does not. -/
theorem classifyCore_tier2 (lk : TargetLookup) (t : List ApiRecord) (r : MergeResults)
    (src : SourceRecord) (u d : String)
    (h1 : (lk.by_name (pyLower (transform_entry src).name)).isEmpty = true)
    (h2 : (lk.by_url u).isEmpty = false) :
    classifyCore lk t r src u d =
      (t, { r with renamed := r.renamed ++
              [⟨(transform_entry src).name,
                (t.getD ((lk.by_url u).headD 0) default).name,
                (transform_entry src).url, (transform_entry src).category⟩] },
       Outcome.renamed) := by
  unfold classifyCore
  simp [h1, h2]

/-- Tier 3 auto-apply branch: no URL match, a (name, category) match whose
first record is broken.  The record at that position is rewritten in place:
source URL, status pending, provenance note holding the prior notes, null
date-checked and try-it. -/
theorem classifyCore_tier3_applied (lk : TargetLookup) (t : List ApiRecord)
    (r : MergeResults) (src : SourceRecord) (u d : String) (i : Nat) (rest : List Nat)
    (hurl : lk.by_url u = [])
    (hcat : lk.by_name_cat (pyLower (transform_entry src).name)
              (transform_entry src).category = i :: rest)
    (hb : (t.getD i default).status = "broken") :
    classifyCore lk t r src u d =
      (t.set i (brokenPatch src (t.getD i default)),
       { r with url_updates_applied := r.url_updates_applied ++
           [tier3Entry src (t.getD i default) "auto-updated"] },
       Outcome.urlUpdateApplied) := by
  simp only [List.getD_eq_getElem?_getD] at hb
  unfold classifyCore brokenPatch tier3Entry
  simp [hurl, hcat, hb]

/-- Tier 3 flagged branch: no URL match, a (name, category) match whose first
record is not broken.  Nothing is mutated. -/
theorem classifyCore_tier3_flagged (lk : TargetLookup) (t : List ApiRecord)
    (r : MergeResults) (src : SourceRecord) (u d : String) (i : Nat) (rest : List Nat)
    (hurl : lk.by_url u = [])
    (hcat : lk.by_name_cat (pyLower (transform_entry src).name)
              (transform_entry src).category = i :: rest)
    (hb : ¬ ((t.getD i default).status = "broken")) :
    classifyCore lk t r src u d =
      (t,
       { r with url_updates := r.url_updates ++
           [tier3Entry src (t.getD i default) "flagged"] },
       Outcome.urlUpdateFlagged) := by
  simp only [List.getD_eq_getElem?_getD] at hb
  unfold classifyCore tier3Entry
  simp [hurl, hcat, hb]

/-- Tier 4 branch: no URL match, no (name, category) match, a name match. -/
theorem classifyCore_tier4 (lk : TargetLookup) (t : List ApiRecord) (r : MergeResults)
    (src : SourceRecord) (u d : String)
    (hurl : lk.by_url u = [])
    (hcat : lk.by_name_cat (pyLower (transform_entry src).name)
              (transform_entry src).category = [])
    (hn : (lk.by_name (pyLower (transform_entry src).name)).isEmpty = false) :
    classifyCore lk t r src u d =
      (t,
       { r with cross_category := r.cross_category ++
           [⟨(transform_entry src).name, (transform_entry src).category,
             (t.getD ((lk.by_name (pyLower (transform_entry src).name)).headD 0) default).name,
             (t.getD ((lk.by_name (pyLower (transform_entry src).name)).headD 0) default).category,
             (transform_entry src).url,
             (t.getD ((lk.by_name (pyLower (transform_entry src).name)).headD 0) default).url⟩] },
       Outcome.crossCategory) := by
  unfold classifyCore
  simp [hurl, hcat, hn]

/-- Tier 5 branch: only a non-generic domain match; the record is recorded as
a domain match AND appended to new_apis. -/
theorem classifyCore_tier5 (lk : TargetLookup) (t : List ApiRecord) (r : MergeResults)
    (src : SourceRecord) (u d : String)
    (hurl : lk.by_url u = [])
    (hcat : lk.by_name_cat (pyLower (transform_entry src).name)
              (transform_entry src).category = [])
    (hn : (lk.by_name (pyLower (transform_entry src).name)).isEmpty = true)
    (h5 : (d != "" && !(GENERIC_DOMAINS.contains d) && !(lk.by_domain d).isEmpty) = true) :
    classifyCore lk t r src u d =
      (t,
       { r with
           domain_matches := r.domain_matches ++
             [⟨(transform_entry src).name, (transform_entry src).url,
               (transform_entry src).category,
               (t.getD ((lk.by_domain d).headD 0) default).name,
               (t.getD ((lk.by_domain d).headD 0) default).url,
               (t.getD ((lk.by_domain d).headD 0) default).category, "added-as-new"⟩]
           new_apis := r.new_apis ++ [transform_entry src] },
       Outcome.domainMatchAdded) := by
  obtain ⟨⟨hd1, hd2⟩, hd3⟩ : (¬d = "" ∧ d ∉ GENERIC_DOMAINS) ∧ ¬lk.by_domain d = [] := by
    simpa using h5
  unfold classifyCore
  simp [hurl, hcat, hn, hd1, hd2, hd3]

/-- Tier 6 branch: nothing matched; the record is appended to new_apis. -/
theorem classifyCore_tier6 (lk : TargetLookup) (t : List ApiRecord) (r : MergeResults)
    (src : SourceRecord) (u d : String)
    (hurl : lk.by_url u = [])
    (hcat : lk.by_name_cat (pyLower (transform_entry src).name)
              (transform_entry src).category = [])
    (hn : (lk.by_name (pyLower (transform_entry src).name)).isEmpty = true)
    (h5 : (d != "" && !(GENERIC_DOMAINS.contains d) && !(lk.by_domain d).isEmpty) = false) :
    classifyCore lk t r src u d =
      (t, { r with new_apis := r.new_apis ++ [transform_entry src] },
       Outcome.new) := by
  unfold classifyCore
  simp [hurl, hcat, hn]
  intro h1 h2
  simpa [h1, h2] using h5

/-- C7: frame property of classification.  Whenever a classification step
emits any outcome other than the tier-3 auto-applied URL update, the target
record list is returned unchanged: mutation happens only on the auto-apply
path. -/
theorem classify_frame (lk : TargetLookup) (t : List ApiRecord) (r : MergeResults)
    (src : SourceRecord) (t' : List ApiRecord) (r' : MergeResults) (o : Outcome)
    (h : classifyStep lk t r src = some (t', r', o))
    (ho : o ≠ Outcome.urlUpdateApplied) : t' = t := by
  cases hnu : normalize_url (transform_entry src).url with
  | none => rw [classifyStep_none_left lk t r src hnu] at h; cases h
  | some u =>
    cases hgd : get_domain (transform_entry src).url with
    | none => rw [classifyStep_none_right lk t r src u hnu hgd] at h; cases h
    | some d =>
      rw [classifyStep_some lk t r src u d hnu hgd] at h
      injection h with h
      cases hu2 : (lk.by_url u).isEmpty with
      | false =>
        cases hn : (lk.by_name (pyLower (transform_entry src).name)).isEmpty with
        | false =>
          rw [classifyCore_tier1 lk t r src u d hn hu2] at h
          exact (Prod.mk.injEq _ _ _ _ ▸ h).1.symm
        | true =>
          rw [classifyCore_tier2 lk t r src u d hn hu2] at h
          exact (Prod.mk.injEq _ _ _ _ ▸ h).1.symm
      | true =>
        have hurl : lk.by_url u = [] := eq_nil_of_isEmpty hu2
        cases hcat : lk.by_name_cat (pyLower (transform_entry src).name)
            (transform_entry src).category with
        | cons i rest =>
          by_cases hb : (t.getD i default).status = "broken"
          · rw [classifyCore_tier3_applied lk t r src u d i rest hurl hcat hb] at h
            have := (Prod.mk.injEq _ _ _ _ ▸ h).2
            have ho2 := (Prod.mk.injEq _ _ _ _ ▸ this).2
            exact absurd ho2.symm ho
          · rw [classifyCore_tier3_flagged lk t r src u d i rest hurl hcat hb] at h
            exact (Prod.mk.injEq _ _ _ _ ▸ h).1.symm
        | nil =>
          cases hn : (lk.by_name (pyLower (transform_entry src).name)).isEmpty with
          | false =>
            rw [classifyCore_tier4 lk t r src u d hurl hcat hn] at h
            exact (Prod.mk.injEq _ _ _ _ ▸ h).1.symm
          | true =>
            cases h5 : (d != "" && !(GENERIC_DOMAINS.contains d) && !(lk.by_domain d).isEmpty) with
            | true =>
              rw [classifyCore_tier5 lk t r src u d hurl hcat hn h5] at h
              exact (Prod.mk.injEq _ _ _ _ ▸ h).1.symm
            | false =>
              rw [classifyCore_tier6 lk t r src u d hurl hcat hn h5] at h
              exact (Prod.mk.injEq _ _ _ _ ▸ h).1.symm

/-- Witness for C7: a concrete non-mutating outcome leaves the target list
unchanged. -/
theorem classify_frame_witness : ([] : List ApiRecord) = [] :=
  classify_frame emptyLookup [] emptyResults frameWitnessSrc []
    { emptyResults with new_apis := [transform_entry frameWitnessSrc] } Outcome.new
    (by decide) (by decide)

/-- C10: tier 1 does not require a single target record to match both keys.
If some record A of the target has the source's lowercased name and some
possibly different record B has the source's normalized URL, the outcome is
duplicate: the target is unchanged and the record goes only to the
duplicates list, never to new_apis. -/
theorem tier1_duplicate_cross_record
    (t : List ApiRecord) (lk : TargetLookup) (r : MergeResults) (src : SourceRecord)
    (u d : String) (a b : ApiRecord)
    (hlk : build_lookup t = some lk)
    (hu : normalize_url (transform_entry src).url = some u)
    (hd : get_domain (transform_entry src).url = some d)
    (ha : a ∈ t) (haName : pyLower a.name = pyLower (transform_entry src).name)
    (hb : b ∈ t) (hbUrl : normalize_url b.url = some u) :
    classifyStep lk t r src =
      some (t, { r with duplicates := r.duplicates ++ [transform_entry src] },
            Outcome.duplicate) := by
  unfold build_lookup at hlk
  split at hlk
  · injection hlk with hlk
    subst hlk
    have hn : (idxWhere 0 t (fun x => pyLower x.name == pyLower (transform_entry src).name)).isEmpty = false :=
      isEmpty_eq_false_of_ne_nil
        (idxWhere_ne_nil ha (by simp [haName]) 0)
    have hu2 : (idxWhere 0 t (fun x => normalize_url x.url == some u)).isEmpty = false :=
      isEmpty_eq_false_of_ne_nil
        (idxWhere_ne_nil hb (by simp [hbUrl]) 0)
    rw [classifyStep_some _ t r src u d hu hd,
        classifyCore_tier1 _ t r src u d hn hu2]
  · cases hlk

/-- Witness for C10: the name key hits only record A and the URL key hits
only the different record B, yet the outcome is duplicate and the target is
untouched. -/
theorem tier1_duplicate_cross_record_witness :
    classifyStep (lookupOf [w10a, w10b]) [w10a, w10b] emptyResults w10src =
      some ([w10a, w10b],
            { emptyResults with duplicates := [transform_entry w10src] },
            Outcome.duplicate) :=
  tier1_duplicate_cross_record [w10a, w10b] (lookupOf [w10a, w10b]) emptyResults w10src
    "foo-api.example.com" "foo-api.example.com" w10a w10b
    (by rfl) (by decide) (by decide)
    (by decide) (by decide) (by decide) (by decide)

/-- C3: tier-3 behaviour.  When no target record matches the normalized URL
and the (name, category) pair matches, the first matched record decides: if
its status is broken it is mutated in place (URL replaced by the source URL,
status reset to pending, prior notes preserved inside the new provenance
note, date-checked and try-it nulled) with outcome url-update-applied; for
any other status nothing is mutated and the outcome is url-update-flagged. -/
theorem tier3_auto_update
    (lk : TargetLookup) (t : List ApiRecord) (r : MergeResults) (src : SourceRecord)
    (u d : String) (i : Nat) (rest : List Nat)
    (hu : normalize_url (transform_entry src).url = some u)
    (hd : get_domain (transform_entry src).url = some d)
    (hurl : lk.by_url u = [])
    (hcat : lk.by_name_cat (pyLower (transform_entry src).name)
              (transform_entry src).category = i :: rest) :
    ((t.getD i default).status = "broken" →
      classifyStep lk t r src =
        some (t.set i { t.getD i default with
                url := (transform_entry src).url
                status := "pending"
                notes := "URL updated from public-apis-2 (was broken). Previous: " ++
                  (t.getD i default).notes
                dateChecked := none
                tryIt := none },
              { r with url_updates_applied := r.url_updates_applied ++
                  [⟨(transform_entry src).name, (transform_entry src).category,
                    (t.getD i default).url, (t.getD i default).status,
                    (transform_entry src).url, "auto-updated"⟩] },
              Outcome.urlUpdateApplied)) ∧
    ((t.getD i default).status ≠ "broken" →
      classifyStep lk t r src =
        some (t,
              { r with url_updates := r.url_updates ++
                  [⟨(transform_entry src).name, (transform_entry src).category,
                    (t.getD i default).url, (t.getD i default).status,
                    (transform_entry src).url, "flagged"⟩] },
              Outcome.urlUpdateFlagged)) := by
  constructor
  · intro hb
    rw [classifyStep_some lk t r src u d hu hd,
        classifyCore_tier3_applied lk t r src u d i rest hurl hcat hb]
    rfl
  · intro hb
    rw [classifyStep_some lk t r src u d hu hd,
        classifyCore_tier3_flagged lk t r src u d i rest hurl hcat hb]
    rfl

/-- Witness for C3: the broken record is auto-updated in place: source URL,
pending status, provenance note keeping the prior notes, nulled date-checked
and try-it. -/
theorem tier3_auto_update_witness :
    classifyStep (lookupOf [w3broken]) [w3broken] emptyResults w3src =
      some ([{ w3broken with
               url := "https://foo.com/v2"
               status := "pending"
               notes := "URL updated from public-apis-2 (was broken). Previous: old note"
               dateChecked := none
               tryIt := none }],
            { emptyResults with url_updates_applied :=
                [⟨"Foo", "tools", "https://foo.com/v1", "broken",
                  "https://foo.com/v2", "auto-updated"⟩] },
            Outcome.urlUpdateApplied) :=
  (tier3_auto_update (lookupOf [w3broken]) [w3broken] emptyResults w3src
    "foo.com/v2" "foo.com" 0 []
    (by decide) (by decide) (by decide) (by decide)).1 (by decide)

/-- C1: the tiers are evaluated in the fixed order 1 to 6 and the first tier
whose condition holds determines the single outcome; in particular a record
satisfying both the tier-1 and the tier-3 condition is classified duplicate,
never url-update-applied or url-update-flagged. -/
theorem tier_order_first_match (lk : TargetLookup) (t : List ApiRecord)
    (r : MergeResults) (src : SourceRecord) (u d : String)
    (hu : normalize_url (transform_entry src).url = some u)
    (hd : get_domain (transform_entry src).url = some d) :
    (∃ t2 r2, classifyStep lk t r src =
        some (t2, r2, firstTierOutcome lk src u d t)) ∧
    (tier1Cond lk src u = true → tier3Cond lk src = true →
      firstTierOutcome lk src u d t = Outcome.duplicate) := by
  constructor
  · rw [classifyStep_some lk t r src u d hu hd]
    cases hu2 : (lk.by_url u).isEmpty with
    | false =>
      cases hn : (lk.by_name (pyLower (transform_entry src).name)).isEmpty with
      | false =>
        rw [classifyCore_tier1 lk t r src u d hn hu2]
        have hf : firstTierOutcome lk src u d t = Outcome.duplicate := by
          unfold firstTierOutcome tier1Cond nameKeyOf
          simp [hn, hu2]
        rw [hf]
        exact ⟨_, _, rfl⟩
      | true =>
        rw [classifyCore_tier2 lk t r src u d hn hu2]
        have hf : firstTierOutcome lk src u d t = Outcome.renamed := by
          unfold firstTierOutcome tier1Cond tier2Cond nameKeyOf
          simp [hn, hu2]
        rw [hf]
        exact ⟨_, _, rfl⟩
    | true =>
      have hurl : lk.by_url u = [] := eq_nil_of_isEmpty hu2
      cases hcat : lk.by_name_cat (pyLower (transform_entry src).name)
          (transform_entry src).category with
      | cons i rest =>
        by_cases hb : (t.getD i default).status = "broken"
        · rw [classifyCore_tier3_applied lk t r src u d i rest hurl hcat hb]
          have hb' := hb
          simp only [List.getD_eq_getElem?_getD] at hb'
          have hf : firstTierOutcome lk src u d t = Outcome.urlUpdateApplied := by
            unfold firstTierOutcome tier1Cond tier2Cond tier3Cond tier3Outcome nameKeyOf
            simp [hurl, hcat, hb']
          rw [hf]
          exact ⟨_, _, rfl⟩
        · rw [classifyCore_tier3_flagged lk t r src u d i rest hurl hcat hb]
          have hb' := hb
          simp only [List.getD_eq_getElem?_getD] at hb'
          have hf : firstTierOutcome lk src u d t = Outcome.urlUpdateFlagged := by
            unfold firstTierOutcome tier1Cond tier2Cond tier3Cond tier3Outcome nameKeyOf
            simp [hurl, hcat, hb']
          rw [hf]
          exact ⟨_, _, rfl⟩
      | nil =>
        cases hn : (lk.by_name (pyLower (transform_entry src).name)).isEmpty with
        | false =>
          rw [classifyCore_tier4 lk t r src u d hurl hcat hn]
          have hf : firstTierOutcome lk src u d t = Outcome.crossCategory := by
            unfold firstTierOutcome tier1Cond tier2Cond tier3Cond tier4Cond nameKeyOf
            simp [hurl, hcat, hn]
          rw [hf]
          exact ⟨_, _, rfl⟩
        | true =>
          cases h5 : (d != "" && !(GENERIC_DOMAINS.contains d) && !(lk.by_domain d).isEmpty) with
          | true =>
            rw [classifyCore_tier5 lk t r src u d hurl hcat hn h5]
            have hf : firstTierOutcome lk src u d t = Outcome.domainMatchAdded := by
              obtain ⟨⟨hd1, hd2⟩, hd3⟩ :
                  (¬d = "" ∧ d ∉ GENERIC_DOMAINS) ∧ ¬lk.by_domain d = [] := by
                simpa using h5
              unfold firstTierOutcome tier1Cond tier2Cond tier3Cond tier4Cond tier5Cond nameKeyOf
              simp [hurl, hcat, hn]
              exact ⟨hd1, hd2, hd3⟩
            rw [hf]
            exact ⟨_, _, rfl⟩
          | false =>
            rw [classifyCore_tier6 lk t r src u d hurl hcat hn h5]
            have hf : firstTierOutcome lk src u d t = Outcome.new := by
              unfold firstTierOutcome tier1Cond tier2Cond tier3Cond tier4Cond tier5Cond nameKeyOf
              simp [hurl, hcat, hn]
              intro h1 h2
              simpa [h1, h2] using h5
            rw [hf]
            exact ⟨_, _, rfl⟩
  · intro h1 _
    unfold firstTierOutcome
    simp [h1]

/-- Witness for C1, at a record satisfying both the tier-1 and the tier-3
condition: the outcome is the first-tier outcome and it is duplicate. -/
theorem tier_order_first_match_witness :
    (∃ t2 r2, classifyStep (lookupOf [w1rec]) [w1rec] emptyResults w1src =
        some (t2, r2, firstTierOutcome (lookupOf [w1rec]) w1src "foo.com" "foo.com" [w1rec])) ∧
    (tier1Cond (lookupOf [w1rec]) w1src "foo.com" = true →
      tier3Cond (lookupOf [w1rec]) w1src = true →
      firstTierOutcome (lookupOf [w1rec]) w1src "foo.com" "foo.com" [w1rec] = Outcome.duplicate) :=
  tier_order_first_match (lookupOf [w1rec]) [w1rec] emptyResults w1src "foo.com" "foo.com"
    (by decide) (by decide)

/-- The success and failure counters together advance by one per directive. -/
theorem runBatch_counts_aux (today : String) :
    ∀ (updates : List UpdateDirective) (st : List ApiRecord × Nat × Nat),
      (updates.foldl (batchStep today) st).2.1 + (updates.foldl (batchStep today) st).2.2 =
        st.2.1 + st.2.2 + updates.length := by
  intro updates
  induction updates with
  | nil => intro st; simp
  | cons u us ih =>
    intro st
    rw [List.foldl_cons, ih (batchStep today st u)]
    unfold batchStep
    cases h : firstNameMatch st.1 u.name <;> simp <;> omega

/-- C9: for a batch of update directives that passes validation, a directive
whose name has no case-insensitive match is counted as failed and changes
nothing, a directive that matches is applied to the first matching record,
and the whole batch completes with success and failure counts summing to the
batch size. -/
theorem batch_update_applies (today : String) (apis : List ApiRecord)
    (updates : List UpdateDirective)
    (_hvalid : ∀ u ∈ updates, u.status ∈ VALID_STATUSES) :
    ((runBatch today apis updates).2.1 + (runBatch today apis updates).2.2 = updates.length) ∧
    (∀ (st : List ApiRecord × Nat × Nat) (u : UpdateDirective),
       firstNameMatch st.1 u.name = none →
         batchStep today st u = (st.1, st.2.1, st.2.2 + 1)) ∧
    (∀ (st : List ApiRecord × Nat × Nat) (u : UpdateDirective) (i : Nat),
       firstNameMatch st.1 u.name = some i →
         batchStep today st u =
           (st.1.set i (applyDirective today (st.1.getD i default) u), st.2.1 + 1, st.2.2) ∧
         i < st.1.length ∧
         pyLower (st.1.getD i default).name = pyLower u.name ∧
         (∀ j, j < i → pyLower (st.1.getD j default).name ≠ pyLower u.name)) := by
  refine ⟨?_, ?_, ?_⟩
  · have := runBatch_counts_aux today updates (apis, 0, 0)
    simpa [runBatch] using this
  · intro st u h
    unfold batchStep
    rw [h]
  · intro st u i h
    constructor
    · unfold batchStep
      rw [h]
    · unfold firstNameMatch at h
      cases hl : idxWhere 0 st.1 (fun a => pyLower a.name == pyLower u.name) with
      | nil => rw [hl] at h; cases h
      | cons j rest =>
        rw [hl] at h
        injection h with h
        subst h
        obtain ⟨-, h2, h3, h4⟩ := idxWhere_head st.1 0 j rest hl
        refine ⟨by simpa using h2, by simpa using h3, ?_⟩
        intro k hk
        have := h4 k (Nat.zero_le k) hk
        simpa using this

/-- Replacing an element that satisfies p by one that does not lowers the
count by exactly one. -/
theorem countP_set_true_false (p : ApiRecord → Bool) :
    ∀ (t : List ApiRecord) (i : Nat) (x : ApiRecord),
      i < t.length → p (t.getD i default) = true → p x = false →
      List.countP p (t.set i x) + 1 = List.countP p t := by
  intro t
  induction t with
  | nil => intro i x hi _ _; simp at hi
  | cons a as ih =>
    intro i x hi hp hx
    cases i with
    | zero =>
      have hpa : p a = true := hp
      simp only [List.set, List.countP_cons, hpa, hx]
      simp
    | succ n =>
      have hp' : p (as.getD n default) = true := hp
      have := ih n x (by simpa using hi) hp' hx
      simp only [List.set, List.countP_cons]
      omega

/-- One classification step preserves the sum of the tested count and the
number of applied URL updates, and only appends pending records to new_apis. -/
theorem classifyStep_inv (lk : TargetLookup) (t : List ApiRecord) (r : MergeResults)
    (src : SourceRecord) (t' : List ApiRecord) (r' : MergeResults) (o : Outcome)
    (h : classifyStep lk t r src = some (t', r', o)) :
    countTested t' + r'.url_updates_applied.length =
      countTested t + r.url_updates_applied.length ∧
    (∀ a ∈ r'.new_apis, a ∈ r.new_apis ∨ a.status = "pending") := by
  cases hnu : normalize_url (transform_entry src).url with
  | none => rw [classifyStep_none_left lk t r src hnu] at h; cases h
  | some u =>
    cases hgd : get_domain (transform_entry src).url with
    | none => rw [classifyStep_none_right lk t r src u hnu hgd] at h; cases h
    | some d =>
      rw [classifyStep_some lk t r src u d hnu hgd] at h
      injection h with h
      cases hu2 : (lk.by_url u).isEmpty with
      | false =>
        cases hn : (lk.by_name (pyLower (transform_entry src).name)).isEmpty with
        | false =>
          rw [classifyCore_tier1 lk t r src u d hn hu2] at h
          obtain ⟨rfl, rfl, rfl⟩ : t = t' ∧ _ = r' ∧ Outcome.duplicate = o := by
            simpa [Prod.ext_iff] using h
          exact ⟨rfl, fun a ha => Or.inl ha⟩
        | true =>
          rw [classifyCore_tier2 lk t r src u d hn hu2] at h
          obtain ⟨rfl, rfl, rfl⟩ : t = t' ∧ _ = r' ∧ Outcome.renamed = o := by
            simpa [Prod.ext_iff] using h
          exact ⟨rfl, fun a ha => Or.inl ha⟩
      | true =>
        have hurl : lk.by_url u = [] := eq_nil_of_isEmpty hu2
        cases hcat : lk.by_name_cat (pyLower (transform_entry src).name)
            (transform_entry src).category with
        | cons i rest =>
          by_cases hb : (t.getD i default).status = "broken"
          · rw [classifyCore_tier3_applied lk t r src u d i rest hurl hcat hb] at h
            injection h with h1 h23
            injection h23 with h2 h3
            subst h1
            subst h2
            have hi : i < t.length := by
              by_contra hge
              have hdef : t.getD i default = default := List.getD_eq_default _ _ (by omega)
              rw [hdef] at hb
              exact absurd hb (by decide)
            have key : countTested (t.set i (brokenPatch src (t.getD i default))) + 1 =
                countTested t := by
              unfold countTested
              refine countP_set_true_false _ t i _ hi ?_ ?_
              · rw [hb]; rfl
              · rfl
            constructor
            · simp only [List.length_append, List.length_cons, List.length_nil]
              omega
            · exact fun a ha => Or.inl ha
          · rw [classifyCore_tier3_flagged lk t r src u d i rest hurl hcat hb] at h
            obtain ⟨rfl, rfl, rfl⟩ : t = t' ∧ _ = r' ∧ Outcome.urlUpdateFlagged = o := by
              simpa [Prod.ext_iff] using h
            exact ⟨rfl, fun a ha => Or.inl ha⟩
        | nil =>
          cases hn : (lk.by_name (pyLower (transform_entry src).name)).isEmpty with
          | false =>
            rw [classifyCore_tier4 lk t r src u d hurl hcat hn] at h
            obtain ⟨rfl, rfl, rfl⟩ : t = t' ∧ _ = r' ∧ Outcome.crossCategory = o := by
              simpa [Prod.ext_iff] using h
            exact ⟨rfl, fun a ha => Or.inl ha⟩
          | true =>
            cases h5 : (d != "" && !(GENERIC_DOMAINS.contains d) && !(lk.by_domain d).isEmpty) with
            | true =>
              rw [classifyCore_tier5 lk t r src u d hurl hcat hn h5] at h
              obtain ⟨rfl, rfl, rfl⟩ : t = t' ∧ _ = r' ∧ Outcome.domainMatchAdded = o := by
                simpa [Prod.ext_iff] using h
              refine ⟨rfl, fun a ha => ?_⟩
              rcases List.mem_append.mp ha with h1 | h1
              · exact Or.inl h1
              · have : a = transform_entry src := by simpa using h1
                exact Or.inr (by rw [this]; rfl)
            | false =>
              rw [classifyCore_tier6 lk t r src u d hurl hcat hn h5] at h
              obtain ⟨rfl, rfl, rfl⟩ : t = t' ∧ _ = r' ∧ Outcome.new = o := by
                simpa [Prod.ext_iff] using h
              refine ⟨rfl, fun a ha => ?_⟩
              rcases List.mem_append.mp ha with h1 | h1
              · exact Or.inl h1
              · have : a = transform_entry src := by simpa using h1
                exact Or.inr (by rw [this]; rfl)

/-- The whole classification pass preserves the sum of the tested count and
the number of applied URL updates, and only ever appends pending records to
new_apis. -/
theorem classifyAll_inv (lk : TargetLookup) :
    ∀ (ss : List SourceRecord) (t : List ApiRecord) (r : MergeResults)
      (t' : List ApiRecord) (r' : MergeResults),
      classifyAll lk ss t r = some (t', r') →
      countTested t' + r'.url_updates_applied.length =
        countTested t + r.url_updates_applied.length ∧
      (∀ a ∈ r'.new_apis, a ∈ r.new_apis ∨ a.status = "pending") := by
  intro ss
  induction ss with
  | nil =>
    intro t r t' r' h
    unfold classifyAll at h
    injection h with h
    obtain ⟨h1, h2⟩ : t = t' ∧ r = r' := by simpa [Prod.ext_iff] using h
    subst h1
    subst h2
    exact ⟨rfl, fun a ha => Or.inl ha⟩
  | cons s rest ih =>
    intro t r t' r' h
    unfold classifyAll at h
    cases hs : classifyStep lk t r s with
    | none => rw [hs] at h; cases h
    | some trip =>
      obtain ⟨t1, r1, o1⟩ := trip
      rw [hs] at h
      have hstep := classifyStep_inv lk t r s t1 r1 o1 hs
      have hrest := ih t1 r1 t' r' h
      refine ⟨by omega, fun a ha => ?_⟩
      rcases hrest.2 a ha with h1 | h1
      · exact hstep.2 a h1
      · exact Or.inr h1

/-- Every source record of a successful classification pass has a URL that
normalizes and a domain that extracts. -/
theorem classifyAll_parses (lk : TargetLookup) :
    ∀ (ss : List SourceRecord) (t : List ApiRecord) (r : MergeResults)
      (t' : List ApiRecord) (r' : MergeResults),
      classifyAll lk ss t r = some (t', r') →
      ∀ s ∈ ss, ∃ u g, normalize_url (transform_entry s).url = some u ∧
        get_domain (transform_entry s).url = some g := by
  intro ss
  induction ss with
  | nil => intro t r t' r' _ s hs; cases hs
  | cons s0 rest ih =>
    intro t r t' r' h s hs
    unfold classifyAll at h
    cases hstep : classifyStep lk t r s0 with
    | none => rw [hstep] at h; cases h
    | some trip =>
      obtain ⟨t1, r1, o1⟩ := trip
      rw [hstep] at h
      rcases List.mem_cons.mp hs with rfl | hmem
      · cases hnu : normalize_url (transform_entry s).url with
        | none => rw [classifyStep_none_left lk t r s hnu] at hstep; cases hstep
        | some u =>
          cases hgd : get_domain (transform_entry s).url with
          | none => rw [classifyStep_none_right lk t r s u hnu hgd] at hstep; cases hstep
          | some g => exact ⟨u, g, rfl, rfl⟩
      · exact ih t1 r1 t' r' h s hmem

/-- Counting over a partition of a list by distinct covering keys recovers
the count over the list. -/
theorem countP_partition (p : ApiRecord → Bool) :
    ∀ (cats : List String) (all : List ApiRecord),
      cats.Nodup → (∀ x ∈ all, x.category ∈ cats) →
      (cats.map (fun c => List.countP p (all.filter (fun x => x.category == c)))).sum =
        List.countP p all := by
  intro cats
  induction cats with
  | nil =>
    intro all _ hcov
    have : all = [] := List.eq_nil_iff_forall_not_mem.mpr (fun x hx => by cases hcov x hx)
    simp [this]
  | cons k ks ih =>
    intro all hnd hcov
    obtain ⟨hk, hnd'⟩ := List.nodup_cons.mp hnd
    rw [List.map_cons, List.sum_cons]
    have hmap : ∀ c ∈ ks,
        List.countP p (all.filter (fun x => x.category == c)) =
        List.countP p ((all.filter (fun x => !(x.category == k))).filter
          (fun x => x.category == c)) := by
      intro c hc
      rw [List.filter_filter]
      have : ∀ a ∈ all, (a.category == c) = ((a.category == c) && !(a.category == k)) := by
        intro a _
        by_cases hac : a.category = c
        · have hck : ¬ (c = k) := fun he => hk (he ▸ hc)
          simp [hac, hck]
        · simp [hac]
      rw [List.filter_congr this]
    rw [List.map_congr_left hmap,
        ih (all.filter (fun x => !(x.category == k))) hnd' ?_]
    · have hperm := List.filter_append_perm (fun x => x.category == k) all
      rw [← hperm.countP_eq p, List.countP_append]
    · intro x hx
      obtain ⟨hxall, hxk⟩ := List.mem_filter.mp hx
      have hxcat := hcov x hxall
      rcases List.mem_cons.mp hxcat with he | hm
      · rw [he] at hxk; simp at hxk
      · exact hm

/-- insert_sorted is counting-neutral: it holds exactly the records of
existing ++ new. -/
theorem countP_insert_sorted (p : ApiRecord → Bool) (a b : List ApiRecord) :
    List.countP p (insert_sorted a b) = List.countP p (a ++ b) := by
  unfold insert_sorted
  rw [List.countP_flatten, List.map_map]
  have hmap : ∀ c ∈ (((a ++ b).map (fun x => x.category)).dedup).insertionSort
      (fun x y => x ≤ y),
      (List.countP p ∘ fun c =>
        ((a ++ b).filter (fun x => x.category == c)).insertionSort
          (fun x y => pyLower x.name ≤ pyLower y.name)) c =
      List.countP p ((a ++ b).filter (fun x => x.category == c)) := by
    intro c _
    exact (List.perm_insertionSort _ _).countP_eq p
  rw [List.map_congr_left hmap]
  apply countP_partition
  · exact ((List.perm_insertionSort _ _).symm).nodup (List.nodup_dedup _)
  · intro x hx
    rw [(List.perm_insertionSort _ _).mem_iff, List.mem_dedup]
    exact List.mem_map_of_mem (fun y => y.category) hx

/-- Membership is preserved from existing ++ new into insert_sorted. -/
theorem mem_insert_sorted {x : ApiRecord} {a b : List ApiRecord}
    (h : x ∈ a ++ b) : x ∈ insert_sorted a b := by
  have hc : List.count x (insert_sorted a b) = List.count x (a ++ b) :=
    countP_insert_sorted (fun y => y == x) a b
  exact List.count_pos_iff.mp (by rw [hc]; exact List.count_pos_iff.mpr h)

/-- C2: safety of the write step.  For every successful classification run,
the tested count of the merged output plus the number of applied tier-3 URL
updates equals the pre-merge tested count (equivalently, the merged tested
count is the pre-merge count minus the applied updates), so the write check
passes and the merged list is written; and whenever the post-merge count is
below the expected value the decision is none: the program exits without
writing and the store is unchanged. -/
theorem merge_safety_invariant
    (source : List SourceRecord) (t0 : List ApiRecord) (lk : TargetLookup)
    (t' : List ApiRecord) (res : MergeResults)
    (h : classify_and_merge source t0 lk = some (t', res)) :
    countTested (insert_sorted t' res.new_apis) + res.url_updates_applied.length
        = countTested t0 ∧
    countTested (insert_sorted t' res.new_apis)
        = countTested t0 - res.url_updates_applied.length ∧
    mergeWriteDecision (countTested t0) t' res = some (insert_sorted t' res.new_apis) ∧
    (∀ (tb : Nat) (t2 : List ApiRecord) (r2 : MergeResults),
      countTested (insert_sorted t2 r2.new_apis) < tb - r2.url_updates_applied.length →
      mergeWriteDecision tb t2 r2 = none) := by
  unfold classify_and_merge at h
  obtain ⟨hc, hm⟩ := classifyAll_inv lk source t0 emptyResults t' res h
  have hzero : List.countP (fun a => a.status != "pending") res.new_apis = 0 := by
    rw [List.countP_eq_zero]
    intro a ha
    rcases hm a ha with h1 | h1
    · simp [emptyResults] at h1
    · simp [h1]
  have hins : countTested (insert_sorted t' res.new_apis) = countTested t' := by
    unfold countTested
    rw [countP_insert_sorted, List.countP_append, hzero]
    omega
  have hc' : countTested t' + res.url_updates_applied.length = countTested t0 := by
    simpa [emptyResults] using hc
  refine ⟨by omega, by omega, ?_, ?_⟩
  · unfold mergeWriteDecision
    rw [if_neg (by omega)]
  · intro tb t2 r2 hlt
    unfold mergeWriteDecision
    rw [if_pos hlt]

/-- Witness for C2 on a run with one applied URL update and one insertion:
the tested count of the merged output plus the applied updates equals the
pre-merge tested count. -/
theorem merge_safety_invariant_witness :
    countTested (insert_sorted w2run.1 w2run.2.new_apis) +
      w2run.2.url_updates_applied.length = countTested w2target :=
  (merge_safety_invariant w2source w2target (lookupOf w2target) w2run.1 w2run.2 rfl).1

/-- A record of the target makes its lowercased name key hit in the built
lookup. -/
theorem build_lookup_by_name_nonempty (t : List ApiRecord) (lk : TargetLookup)
    (h : build_lookup t = some lk) (a : ApiRecord) (ha : a ∈ t) :
    (lk.by_name (pyLower a.name)).isEmpty = false := by
  unfold build_lookup at h
  split at h
  · injection h with h
    subst h
    exact isEmpty_eq_false_of_ne_nil (idxWhere_ne_nil ha (by simp) 0)
  · cases h

/-- A record of the target makes its normalized URL key hit in the built
lookup. -/
theorem build_lookup_by_url_nonempty (t : List ApiRecord) (lk : TargetLookup)
    (h : build_lookup t = some lk) (b : ApiRecord) (hb : b ∈ t) (u : String)
    (hu : normalize_url b.url = some u) :
    (lk.by_url u).isEmpty = false := by
  unfold build_lookup at h
  split at h
  · injection h with h
    subst h
    exact isEmpty_eq_false_of_ne_nil (idxWhere_ne_nil hb (by simp [hu]) 0)
  · cases h

/-- C4: merging is idempotent with respect to insertion.  If a first
classification pass ends with a record in new_apis and the merged target is
indexed again, a second classification of the same source record is tier-1
duplicate — the target state is unchanged, the record goes only to the
duplicates list, and the outcome is never new. -/
theorem merge_idempotent_duplicate
    (source : List SourceRecord) (t0 : List ApiRecord) (lk0 lk1 : TargetLookup)
    (t' : List ApiRecord) (res : MergeResults) (src : SourceRecord)
    (h1 : classify_and_merge source t0 lk0 = some (t', res))
    (hsrc : src ∈ source)
    (hnew : transform_entry src ∈ res.new_apis)
    (h2 : build_lookup (insert_sorted t' res.new_apis) = some lk1) :
    ∀ (t : List ApiRecord) (r : MergeResults),
      classifyStep lk1 t r src =
        some (t, { r with duplicates := r.duplicates ++ [transform_entry src] },
              Outcome.duplicate) := by
  unfold classify_and_merge at h1
  obtain ⟨u, g, hu, hg⟩ := classifyAll_parses lk0 source t0 emptyResults t' res h1 src hsrc
  have hmem : transform_entry src ∈ insert_sorted t' res.new_apis :=
    mem_insert_sorted (List.mem_append.mpr (Or.inr hnew))
  have hn := build_lookup_by_name_nonempty _ lk1 h2 _ hmem
  have hu2 := build_lookup_by_url_nonempty _ lk1 h2 _ hmem u hu
  intro t r
  rw [classifyStep_some lk1 t r src u g hu hg,
      classifyCore_tier1 lk1 t r src u g hn hu2]

/-- Witness for C4: the record inserted as new by the first pass is
classified duplicate by the second pass over the merged target. -/
theorem merge_idempotent_duplicate_witness :
    classifyStep (lookupOf w4merged) [] emptyResults w4src =
      some ([], { emptyResults with duplicates := [transform_entry w4src] },
            Outcome.duplicate) :=
  merge_idempotent_duplicate [w4src] [] (lookupOf []) (lookupOf w4merged)
    w4run.1 w4run.2 w4src rfl (List.mem_cons_self _ _) (by decide) (by rfl) [] emptyResults

/-- Witness for C9: a batch with one matching and one missing directive
completes with success and failure counts summing to the batch size. -/
theorem batch_update_applies_witness :
    (runBatch "2026-10-12" [w9api] w9updates).2.1 +
      (runBatch "2026-10-12" [w9api] w9updates).2.2 = w9updates.length :=
  (batch_update_applies "2026-10-12" [w9api] w9updates (by decide)).1
